import Mathlib

/-!
Verification development for the Vision-Servo-Control-System repository.

The repository contains two variants of the control program:
* `src/缪旭/src/main.py` — the dominant, most complete variant; its functions
  are embedded here under their source names (`adjusted_threshold`,
  `send_control_command`, `calculate_control_vector`, `detect_red_target`,
  `detect_yellow_obstacle`, `handshake`, `process_image`, the `main` loop).
* `src/main.py` — a secondary variant; where its logic differs it is embedded
  with an `_alt` suffix (`handshake_alt`, `calculate_control_vector_alt`).

Modelling conventions:
* Python floats are modelled by `ℚ`.
* The square roots computed by `np.sqrt` are irrational in general, so the
  embedded control law takes the two distances the source would compute
  (`td` for the target distance `sqrt(dx^2+dy^2)`, `od` for the obstacle
  distance) as extra parameters; theorems that depend on their numeric value
  carry the hypothesis `is_sqrt_of` tying them to the squared offsets.
  All the obstacle-distance square roots appearing in one call
  (`obs_dist_check`, `obs_distance`, `distance` in the no-target branch) are
  of the same quantity, the norm of the obstacle's offset from the center,
  so a single parameter `od` covers them.
* Python divisions whose denominator is a run-time quantity are modelled by
  the checked division `cdiv`, so a division by zero (a `ZeroDivisionError`
  or a numpy `nan`) surfaces as `none` and propagates through the
  `Option` monad.
* The OpenCV calls (color conversion, `inRange`, morphology, `findContours`,
  `contourArea`, `moments`, `minEnclosingCircle`) are an external library; a
  detected contour is abstracted as its area, its moments and its minimum
  enclosing circle center, and the detectors are embedded from the point
  where `findContours` has returned, which is where the repository's own
  logic (largest-area selection, the `area < 100` filter, the `m00 == 0`
  degenerate case, centroid / circle-center extraction) lives.
-/

/-- The five discrete commands the quantizer can emit. -/
inductive Command where
  | UP
  | DOWN
  | LEFT
  | RIGHT
  | NOOP
deriving DecidableEq, Repr

/-- The stdout text of a command line. -/
def Command.line : Command → String
  | Command.UP => "UP"
  | Command.DOWN => "DOWN"
  | Command.LEFT => "LEFT"
  | Command.RIGHT => "RIGHT"
  | Command.NOOP => "NOOP"

/-- Checked division on `ℚ`: `none` models a Python division whose
denominator is zero (`ZeroDivisionError`, or `nan` under numpy). -/
def cdiv (a b : ℚ) : Option ℚ :=
  if b = 0 then none else some (a / b)

/-- `r` is the nonnegative square root of `q`, i.e. the exact value
`np.sqrt q` returns in the source. -/
def is_sqrt_of (r q : ℚ) : Prop := 0 ≤ r ∧ r * r = q

/-- Threshold selection of `send_control_command`
(src/缪旭/src/main.py lines 451-470; identical in src/main.py lines 333-352).
`task_id` is the global `TASK_ID`, `distance` the third argument. -/
def adjusted_threshold (task_id : ℤ) (distance : ℚ) : ℚ :=
  if task_id = 1 then 1
  else if task_id = 2 then 3/2
  else
    if distance > 100 then 1/1000
    else if distance > 50 then 2/1000
    else if distance > 20 then 3/1000
    else if distance > 5 then 5/1000
    else 1/1000

/-- Dominant-axis command selection of `send_control_command`
(src/缪旭/src/main.py lines 481-494): the value of the Python variable
`command`, which is `None` exactly when the dominant component exceeds the
threshold in neither direction. -/
def dominant_command (t vx vy : ℚ) : Option Command :=
  if |vx| > |vy| then
    if vx > t then some Command.RIGHT
    else if vx < -t then some Command.LEFT
    else none
  else
    if vy > t then some Command.DOWN
    else if vy < -t then some Command.UP
    else none

/-- Embedding of `send_control_command` (src/缪旭/src/main.py lines 441-501;
identical in src/main.py lines 323-383).  The returned list is the sequence
of command lines the call prints to stdout.  The Python `threshold`
parameter (default `0.3`) is dead — `adjusted_threshold` is always
reassigned before any use — so it is omitted here. -/
def send_control_command (task_id : ℤ) (vx vy distance : ℚ) : List Command :=
  let t := adjusted_threshold task_id distance
  if |vx| < t ∧ |vy| < t then [Command.NOOP]
  else
    match dominant_command t vx vy with
    | some c => [c]
    | none => [Command.NOOP]

/-- Five-band conservative gain of Task 2
(src/缪旭/src/main.py lines 218-233; identical in src/main.py lines 207-222):
`>100→1.5, >50→1.0, >25→0.6, >10→0.4, else→0.25`. -/
def task2_gain (target_distance : ℚ) : ℚ :=
  if target_distance > 100 then 3/2
  else if target_distance > 50 then 1
  else if target_distance > 25 then 3/5
  else if target_distance > 10 then 2/5
  else 1/4

/-- Bypass tangent of the Task-3 safety-zone branch
(src/缪旭/src/main.py lines 267-289): from the cross product
`dx*dy_obs - dy*dx_obs`, pick the tangent `(dy,-dx)` (cross `> 0`) or
`(-dy,dx)` (otherwise), normalized by `tangent_len = max(sqrt(dx^2+dy^2), 1)`;
`td` stands for that square root. -/
def bypass_tangent (dx dy dx_obs dy_obs td : ℚ) : Option (ℚ × ℚ) :=
  let cross_product := dx * dy_obs - dy * dx_obs
  let tangent_len := max td 1
  if cross_product > 0 then do
    let bvx ← cdiv dy tangent_len
    let bvy ← cdiv (-dx) tangent_len
    some (bvx, bvy)
  else do
    let bvx ← cdiv (-dy) tangent_len
    let bvy ← cdiv dx tangent_len
    some (bvx, bvy)

/-- Regime-dependent (bypass force, reduced target force) pairs of the
Task-3 bypass branches (src/缪旭/src/main.py lines 298-299, 336-337,
376-377), keyed by the same distance regimes as the stages. -/
def bypass_forces (target_distance : ℚ) : ℚ × ℚ :=
  if target_distance > 150 then (4000, 300)
  else if target_distance > 30 then (3000, 200)
  else (2000, 100)

/-- Reflection of the point `(px, py)` across the line through the origin in
direction `(dx, dy)` — the center-to-target line in offset coordinates.
Meaningful when `dx^2 + dy^2 ≠ 0`. -/
def reflect_across (dx dy px py : ℚ) : ℚ × ℚ :=
  (((dx^2 - dy^2) * px + 2*dx*dy*py) / (dx^2 + dy^2),
   (2*dx*dy*px + (dy^2 - dx^2) * py) / (dx^2 + dy^2))

/-- The Python flags `obstacle_in_safety_zone` and `(bypass_vx, bypass_vy)`
of the Task-3 branch (src/缪旭/src/main.py lines 249-291), packaged: outer
`some` means the obstacle is inside the square safety zone (half-width 150
around the center), the payload being the tangent (itself an `Option`
because of its checked divisions); `none` means no obstacle or an obstacle
outside the zone. -/
def safety_zone_state (image_width image_height : ℕ)
    (yellow_pos : Option (ℚ × ℚ)) (dx dy td : ℚ) : Option (Option (ℚ × ℚ)) :=
  let center_x : ℚ := (image_width / 2 : ℕ)
  let center_y : ℚ := (image_height / 2 : ℕ)
  match yellow_pos with
  | none => none
  | some (yellow_cx, yellow_cy) =>
    let dx_obs := yellow_cx - center_x
    let dy_obs := yellow_cy - center_y
    if |dx_obs| < 150 ∧ |dy_obs| < 150 then
      some (bypass_tangent dx dy dx_obs dy_obs td)
    else none

/-- Stage 1 of the dominant variant's Task-3 law
(src/缪旭/src/main.py lines 293-329): fast approach (`target_distance >
150`) — bypass with forces `(4000, 300)` when the safety zone is occupied,
otherwise attraction `600` plus repulsion when the obstacle is nearer than
250. -/
def task3_far (image_width image_height : ℕ) (yellow_pos : Option (ℚ × ℚ))
    (yellow_area dx dy target_distance od : ℚ)
    (bypass_state : Option (Option (ℚ × ℚ))) : Option (ℚ × ℚ × ℚ) :=
  let center_x : ℚ := (image_width / 2 : ℕ)
  let center_y : ℚ := (image_height / 2 : ℕ)
  match bypass_state with
  | some tangent => do
    let (bvx, bvy) ← tangent
    let ux ← cdiv dx target_distance
    let uy ← cdiv dy target_distance
    some (4000 * bvx + 300 * ux, 4000 * bvy + 300 * uy, target_distance)
  | none => do
    let ux ← cdiv dx target_distance
    let uy ← cdiv dy target_distance
    let vx := 600 * ux
    let vy := 600 * uy
    match yellow_pos with
    | some (yellow_cx, yellow_cy) =>
      let dx_obs := center_x - yellow_cx
      let dy_obs := center_y - yellow_cy
      if od < 250 then do
        let area_factor := min (yellow_area / 300) 10
        let base ← cdiv 1200 (max od 2)
        let repulsion := base * (1 + area_factor)
        let rux ← cdiv dx_obs od
        let ruy ← cdiv dy_obs od
        some (vx + repulsion * rux, vy + repulsion * ruy, target_distance)
      else some (vx, vy, target_distance)
    | none => some (vx, vy, target_distance)

/-- Stage 2 of the dominant variant's Task-3 law
(src/缪旭/src/main.py lines 331-369): balanced regime (`30 <
target_distance ≤ 150`) — bypass with forces `(3000, 200)` when the safety
zone is occupied, otherwise capped attraction plus capped repulsion when
the obstacle is nearer than 180. -/
def task3_mid (image_width image_height : ℕ) (yellow_pos : Option (ℚ × ℚ))
    (yellow_area dx dy target_distance od : ℚ)
    (bypass_state : Option (Option (ℚ × ℚ))) : Option (ℚ × ℚ × ℚ) :=
  let center_x : ℚ := (image_width / 2 : ℕ)
  let center_y : ℚ := (image_height / 2 : ℕ)
  match bypass_state with
  | some tangent => do
    let (bvx, bvy) ← tangent
    let ux ← cdiv dx target_distance
    let uy ← cdiv dy target_distance
    some (3000 * bvx + 200 * ux, 3000 * bvy + 200 * uy, target_distance)
  | none => do
    let attraction_force := min (target_distance / 30) 80
    let ux ← cdiv dx target_distance
    let uy ← cdiv dy target_distance
    let vx := attraction_force * ux
    let vy := attraction_force * uy
    match yellow_pos with
    | some (yellow_cx, yellow_cy) =>
      let dx_obs := center_x - yellow_cx
      let dy_obs := center_y - yellow_cy
      if od < 180 then do
        let area_factor := min (yellow_area / 300) 10
        let base ← cdiv 1500 (max od 5)
        let repulsion_force := min (base * (1 + area_factor)) 80
        let rux ← cdiv dx_obs od
        let ruy ← cdiv dy_obs od
        some (vx + repulsion_force * rux, vy + repulsion_force * ruy,
              target_distance)
      else some (vx, vy, target_distance)
    | none => some (vx, vy, target_distance)

/-- Stage 3 of the dominant variant's Task-3 law
(src/缪旭/src/main.py lines 371-421): fine tuning (`target_distance ≤
30`) — bypass with forces `(2000, 100)` when the safety zone is occupied,
otherwise capped attraction plus capped repulsion when the obstacle is
nearer than 120, then the large-obstacle area-ratio boost (×5 above 10% of
the frame, ×3 above 5%). -/
def task3_near (image_width image_height : ℕ) (yellow_pos : Option (ℚ × ℚ))
    (yellow_area dx dy target_distance od : ℚ)
    (bypass_state : Option (Option (ℚ × ℚ))) : Option (ℚ × ℚ × ℚ) :=
  let center_x : ℚ := (image_width / 2 : ℕ)
  let center_y : ℚ := (image_height / 2 : ℕ)
  match bypass_state with
  | some tangent => do
    let (bvx, bvy) ← tangent
    let ux ← cdiv dx target_distance
    let uy ← cdiv dy target_distance
    some (2000 * bvx + 100 * ux, 2000 * bvy + 100 * uy, target_distance)
  | none => do
    let attraction_force := min (target_distance / 80) 12
    let ux ← cdiv dx target_distance
    let uy ← cdiv dy target_distance
    let vx := attraction_force * ux
    let vy := attraction_force * uy
    match yellow_pos with
    | some (yellow_cx, yellow_cy) =>
      let dx_obs := center_x - yellow_cx
      let dy_obs := center_y - yellow_cy
      if od < 120 then do
        let area_factor := min (yellow_area / 300) 8
        let base ← cdiv 1200 (max od 10)
        let repulsion_force := min (base * (1 + area_factor)) 60
        let rux ← cdiv dx_obs od
        let ruy ← cdiv dy_obs od
        let vx2 := vx + repulsion_force * rux
        let vy2 := vy + repulsion_force * ruy
        let image_area : ℚ := (image_width * image_height : ℕ)
        let yellow_ratio ← cdiv yellow_area image_area
        if yellow_ratio > 1/10 then
          some (vx2 * 5, vy2 * 5, target_distance)
        else if yellow_ratio > 1/20 then
          some (vx2 * 3, vy2 * 3, target_distance)
        else some (vx2, vy2, target_distance)
      else some (vx, vy, target_distance)
    | none => some (vx, vy, target_distance)

/-- The no-target branch shared verbatim by both variants
(src/缪旭/src/main.py lines 422-437; src/main.py lines 304-318): capped
inverse-distance repulsion away from the obstacle, zero if no obstacle;
the returned distance is 0. -/
def no_target_control (image_width image_height : ℕ)
    (yellow_pos : Option (ℚ × ℚ)) (yellow_area od : ℚ) : Option (ℚ × ℚ × ℚ) :=
  let center_x : ℚ := (image_width / 2 : ℕ)
  let center_y : ℚ := (image_height / 2 : ℕ)
  match yellow_pos with
  | none => some (0, 0, 0)
  | some (yellow_cx, yellow_cy) =>
    let dx := center_x - yellow_cx
    let dy := center_y - yellow_cy
    if od > 0 then do
      let area_factor := min (yellow_area / 800) 4
      let base ← cdiv 300 (max od 40)
      let repulsion_force := min (base * (1 + area_factor)) 15
      let rux ← cdiv dx od
      let ruy ← cdiv dy od
      some (repulsion_force * rux, repulsion_force * ruy, 0)
    else some (0, 0, 0)

/-- Embedding of `calculate_control_vector` of the dominant variant
(src/缪旭/src/main.py lines 171-438), assembled from the stage embeddings
above.  `td` is the value of `np.sqrt(dx**2 + dy**2)` for the target offset
and `od` the value of the (single) obstacle-offset norm
`np.sqrt(dx_obs**2 + dy_obs**2)`; both are only meaningful under an
`is_sqrt_of` hypothesis.  The result is `some (vx, vy, target_distance)`,
or `none` if a division by zero was reached. -/
def calculate_control_vector (task_id : ℤ) (image_width image_height : ℕ)
    (red_pos yellow_pos : Option (ℚ × ℚ)) (yellow_area : ℚ)
    (td od : ℚ) : Option (ℚ × ℚ × ℚ) :=
  let center_x : ℚ := (image_width / 2 : ℕ)
  let center_y : ℚ := (image_height / 2 : ℕ)
  match red_pos with
  | none => no_target_control image_width image_height yellow_pos yellow_area od
  | some (red_cx, red_cy) =>
    let dx := red_cx - center_x
    let dy := red_cy - center_y
    let target_distance := td
    if target_distance > 0 then
      if task_id = 1 then
        -- lines 208-214: Task 1, direct proportional
        some (dx, dy, target_distance)
      else if task_id = 2 then
        -- lines 216-236: Task 2, five-band conservative gain
        some (task2_gain target_distance * dx, task2_gain target_distance * dy,
              target_distance)
      else
        -- lines 238-421: Task 3, staged potential field
        let bypass_state :=
          safety_zone_state image_width image_height yellow_pos dx dy td
        if target_distance > 150 then
          task3_far image_width image_height yellow_pos yellow_area dx dy
            target_distance od bypass_state
        else if target_distance > 30 then
          task3_mid image_width image_height yellow_pos yellow_area dx dy
            target_distance od bypass_state
        else
          task3_near image_width image_height yellow_pos yellow_area dx dy
            target_distance od bypass_state
    else some (0, 0, target_distance)

/-- Stage 1 of the secondary variant's Task-3 law (src/main.py lines
233-249): attraction `2000`, and a repulsion gated only by
`obs_distance < 60` — with no `obs_distance > 0` guard — before dividing
the obstacle offset by `obs_distance`. -/
def alt_stage1 (image_width image_height : ℕ) (yellow_pos : Option (ℚ × ℚ))
    (dx dy target_distance od : ℚ) : Option (ℚ × ℚ × ℚ) :=
  let center_x : ℚ := (image_width / 2 : ℕ)
  let center_y : ℚ := (image_height / 2 : ℕ)
  do
  let ux ← cdiv dx target_distance
  let uy ← cdiv dy target_distance
  let vx := 2000 * ux
  let vy := 2000 * uy
  match yellow_pos with
  | some (yellow_cx, yellow_cy) =>
    let dx_obs := center_x - yellow_cx
    let dy_obs := center_y - yellow_cy
    if od < 60 then do
      let base ← cdiv 50 (max od 15)
      let rux ← cdiv dx_obs od
      let ruy ← cdiv dy_obs od
      some (vx + base * rux, vy + base * ruy, target_distance)
    else some (vx, vy, target_distance)
  | none => some (vx, vy, target_distance)

/-- Stage 2 of the secondary variant's Task-3 law (src/main.py lines
251-271): capped attraction plus capped repulsion, guarded by
`obs_distance > 0`. -/
def alt_stage2 (image_width image_height : ℕ) (yellow_pos : Option (ℚ × ℚ))
    (yellow_area dx dy target_distance od : ℚ) : Option (ℚ × ℚ × ℚ) :=
  let center_x : ℚ := (image_width / 2 : ℕ)
  let center_y : ℚ := (image_height / 2 : ℕ)
  do
  let attraction_force := min (target_distance / 20) 120
  let ux ← cdiv dx target_distance
  let uy ← cdiv dy target_distance
  let vx := attraction_force * ux
  let vy := attraction_force * uy
  match yellow_pos with
  | some (yellow_cx, yellow_cy) =>
    let dx_obs := center_x - yellow_cx
    let dy_obs := center_y - yellow_cy
    if od > 0 then do
      let area_factor := min (yellow_area / 1000) 3
      let base ← cdiv 200 (max od 50)
      let repulsion_force := min (base * (1 + area_factor)) 12
      let rux ← cdiv dx_obs od
      let ruy ← cdiv dy_obs od
      some (vx + repulsion_force * rux, vy + repulsion_force * ruy,
            target_distance)
    else some (vx, vy, target_distance)
  | none => some (vx, vy, target_distance)

/-- Stage 3 of the secondary variant's Task-3 law (src/main.py lines
273-303): capped attraction plus capped repulsion guarded by
`obs_distance > 0`, then the area-ratio boost (×2.5 above 10% of the
frame, ×1.5 above 5%). -/
def alt_stage3 (image_width image_height : ℕ) (yellow_pos : Option (ℚ × ℚ))
    (yellow_area dx dy target_distance od : ℚ) : Option (ℚ × ℚ × ℚ) :=
  let center_x : ℚ := (image_width / 2 : ℕ)
  let center_y : ℚ := (image_height / 2 : ℕ)
  do
  let attraction_force := min (target_distance / 80) 12
  let ux ← cdiv dx target_distance
  let uy ← cdiv dy target_distance
  let vx := attraction_force * ux
  let vy := attraction_force * uy
  match yellow_pos with
  | some (yellow_cx, yellow_cy) =>
    let dx_obs := center_x - yellow_cx
    let dy_obs := center_y - yellow_cy
    if od > 0 then do
      let area_factor := min (yellow_area / 800) 4
      let base ← cdiv 300 (max od 40)
      let repulsion_force := min (base * (1 + area_factor)) 15
      let rux ← cdiv dx_obs od
      let ruy ← cdiv dy_obs od
      let vx2 := vx + repulsion_force * rux
      let vy2 := vy + repulsion_force * ruy
      let image_area : ℚ := (image_width * image_height : ℕ)
      let yellow_ratio ← cdiv yellow_area image_area
      if yellow_ratio > 1/10 then
        some (vx2 * (5/2), vy2 * (5/2), target_distance)
      else if yellow_ratio > 1/20 then
        some (vx2 * (3/2), vy2 * (3/2), target_distance)
      else some (vx2, vy2, target_distance)
    else some (vx, vy, target_distance)
  | none => some (vx, vy, target_distance)

/-- Embedding of `calculate_control_vector` of the secondary variant
(src/main.py lines 164-320), assembled from the stage embeddings above;
same conventions as `calculate_control_vector`.  Its Task-3 law has no
safety zone / bypass: every stage is plain attraction plus repulsion. -/
def calculate_control_vector_alt (task_id : ℤ) (image_width image_height : ℕ)
    (red_pos yellow_pos : Option (ℚ × ℚ)) (yellow_area : ℚ)
    (td od : ℚ) : Option (ℚ × ℚ × ℚ) :=
  let center_x : ℚ := (image_width / 2 : ℕ)
  let center_y : ℚ := (image_height / 2 : ℕ)
  match red_pos with
  | none => no_target_control image_width image_height yellow_pos yellow_area od
  | some (red_cx, red_cy) =>
    let dx := red_cx - center_x
    let dy := red_cy - center_y
    let target_distance := td
    if target_distance > 0 then
      if task_id = 1 then some (dx, dy, target_distance)
      else if task_id = 2 then
        some (task2_gain target_distance * dx, task2_gain target_distance * dy,
              target_distance)
      else
        if target_distance > 150 then
          alt_stage1 image_width image_height yellow_pos dx dy
            target_distance od
        else if target_distance > 30 then
          alt_stage2 image_width image_height yellow_pos yellow_area dx dy
            target_distance od
        else
          alt_stage3 image_width image_height yellow_pos yellow_area dx dy
            target_distance od
    else some (0, 0, target_distance)

/-- A contour as returned by `cv2.findContours`, abstracted to the quantities
the repository's code reads off it: `cv2.contourArea`, the moments
`m00, m10, m01` of `cv2.moments`, and the `cv2.minEnclosingCircle` center. -/
structure Contour where
  area : ℚ
  m00 : ℚ
  m10 : ℚ
  m01 : ℚ
  circle_center : ℚ × ℚ
deriving DecidableEq, Repr

/-- `max(contours, key=cv2.contourArea)`: Python `max` keeps the first
maximal element, replacing the running best only on strict increase. -/
def max_contour_by_area : List Contour → Option Contour
  | [] => none
  | c :: cs => some (cs.foldl (fun best x => if x.area > best.area then x else best) c)

/-- Python `int()` on a rational value: truncation toward zero. -/
def pyInt (q : ℚ) : ℤ := if 0 ≤ q then ⌊q⌋ else ⌈q⌉

/-- Embedding of `detect_yellow_obstacle` (src/缪旭/src/main.py lines 66-111;
identical in src/main.py lines 59-104) from the contour list returned by
`cv2.findContours` on the hue-masked image: returns `(position?, area)`,
dropping the contour component the source also returns (used only for debug
drawing).  No contour ⇒ `(none, 0)`; largest area `< 100` ⇒ `(none, 0)`;
zero `m00` despite area `≥ 100` ⇒ `(none, area)`; else the centroid. -/
def detect_yellow_obstacle (contours : List Contour) : Option (ℤ × ℤ) × ℚ :=
  match max_contour_by_area contours with
  | none => (none, 0)
  | some c =>
    if c.area < 100 then (none, 0)
    else if c.m00 = 0 then (none, c.area)
    else (some (pyInt (c.m10 / c.m00), pyInt (c.m01 / c.m00)), c.area)

/-- Embedding of `detect_red_target` (src/缪旭/src/main.py lines 114-168;
identical in src/main.py lines 107-161) from the contour list of the merged
red masks: no contour ⇒ `none`; largest area `< 100` ⇒ `none`; else the
minimum enclosing circle center (no moment computation at all). -/
def detect_red_target (contours : List Contour) : Option (ℤ × ℤ) :=
  match max_contour_by_area contours with
  | none => none
  | some c =>
    if c.area < 100 then none
    else some (pyInt c.circle_center.1, pyInt c.circle_center.2)

/-- A successfully loaded frame, abstracted to what the per-frame pipeline of
`process_image` feeds into `calculate_control_vector`: the frame dimensions,
the two detector results, and the two square-root values the control law
computes (see `calculate_control_vector`). -/
structure FrameObs where
  width : ℕ
  height : ℕ
  red_pos : Option (ℚ × ℚ)
  yellow_pos : Option (ℚ × ℚ)
  yellow_area : ℚ
  td : ℚ
  od : ℚ
deriving DecidableEq

/-- The frame's stored square roots are the true ones and the dimensions are
positive — exactly what holds for every frame OpenCV actually loads. -/
def FrameObs.valid (f : FrameObs) : Prop :=
  0 < f.width ∧ 0 < f.height ∧
  (match f.red_pos with
   | none => True
   | some p =>
       is_sqrt_of f.td
         ((p.1 - ((f.width / 2 : ℕ) : ℚ))^2 + (p.2 - ((f.height / 2 : ℕ) : ℚ))^2)) ∧
  (match f.yellow_pos with
   | none => True
   | some p =>
       is_sqrt_of f.od
         ((p.1 - ((f.width / 2 : ℕ) : ℚ))^2 + (p.2 - ((f.height / 2 : ℕ) : ℚ))^2))

/-- Embedding of the command-emitting part of `process_image`
(src/缪旭/src/main.py lines 504-551) on a successfully loaded frame: run the
control law, then `send_control_command`.  The returned list is the sequence
of command lines printed; an internal fault (`none` from the control law)
is caught by the surrounding `try` and prints nothing. -/
def process_image (task_id : ℤ) (f : FrameObs) : List Command :=
  match calculate_control_vector task_id f.width f.height f.red_pos f.yellow_pos
      f.yellow_area f.td f.od with
  | none => []
  | some (vx, vy, distance) => send_control_command task_id vx vy distance

/-- One inbound stdin line of the session loop, classified as the loop does:
blank, a path whose frame fails to load (missing file or unreadable image),
or a path whose frame loads as `f`. -/
inductive InboundLine where
  | blank
  | badFrame
  | goodFrame (f : FrameObs)

/-- Command lines emitted for one inbound line
(src/缪旭/src/main.py lines 727-751): blank lines are skipped, a failed load
returns from `process_image` without printing, a loaded frame runs the
pipeline. -/
def process_line (task_id : ℤ) : InboundLine → List Command
  | InboundLine.blank => []
  | InboundLine.badFrame => []
  | InboundLine.goodFrame f => process_image task_id f

/-- Embedding of the `main` read-process-write loop
(src/缪旭/src/main.py lines 722-751): it consumes every inbound line until
end-of-input and concatenates the command lines each one produces. -/
def session_loop (task_id : ℤ) (lines : List InboundLine) : List Command :=
  match lines with
  | [] => []
  | l :: rest => process_line task_id l ++ session_loop task_id rest

/-- The frames of the inbound lines that load successfully, in input order. -/
def good_frames (lines : List InboundLine) : List FrameObs :=
  lines.filterMap fun l =>
    match l with
    | InboundLine.goodFrame f => some f
    | _ => none

/-- The single command a successfully loaded frame produces. -/
def frame_command (task_id : ℤ) (f : FrameObs) : Command :=
  (process_image task_id f).headD Command.NOOP

/-- Embedding of `handshake` of the dominant variant
(src/缪旭/src/main.py lines 44-63): a `debug=` line (the source prints the
literal `debug=false` whatever its `debug` argument), the `task n` line, and
for task 0 two one-shot identification lines (name and student id). -/
def handshake (task_id : ℤ) : List String :=
  ["debug=false", "task " ++ toString task_id] ++
    (if task_id = 0 then ["缪旭", "202510322027"] else [])

/-- Embedding of `handshake` of the secondary variant
(src/main.py lines 44-56): only the `debug=` line (literal `debug=true`)
and the `task n` line, with no task-0 identification lines. -/
def handshake_alt (task_id : ℤ) : List String :=
  ["debug=true", "task " ++ toString task_id]

/-- Everything `main` of the dominant variant writes to stdout
(src/缪旭/src/main.py lines 695-757): the handshake, then the command lines
of the session loop. -/
def main_stdout (task_id : ℤ) (lines : List InboundLine) : List String :=
  handshake task_id ++ (session_loop task_id lines).map Command.line

/-- A frame with no detections, used to exercise the session loop. -/
def demo_frame : FrameObs :=
  { width := 640, height := 480, red_pos := none, yellow_pos := none,
    yellow_area := 0, td := 0, od := 0 }

/-- A frame whose target sits 200 pixels from the center (a 160-120-200
Pythagorean offset), used to exercise the session loop. -/
def demo_frame2 : FrameObs :=
  { width := 640, height := 480, red_pos := some (480, 360), yellow_pos := none,
    yellow_area := 0, td := 200, od := 0 }

/-- A four-line inbound sequence: blank, good, bad, good. -/
def demo_lines : List InboundLine :=
  [InboundLine.blank, InboundLine.goodFrame demo_frame, InboundLine.badFrame,
   InboundLine.goodFrame demo_frame2]

/-- Whether an inbound line is a successfully loading frame. -/
def is_good : InboundLine → Bool
  | InboundLine.goodFrame _ => true
  | _ => false

/-! ## Helper lemmas -/

theorem adjusted_threshold_pos (task_id : ℤ) (distance : ℚ) :
    0 < adjusted_threshold task_id distance := by
  unfold adjusted_threshold
  split_ifs <;> norm_num

theorem send_control_command_singleton (task_id : ℤ) (vx vy distance : ℚ) :
    ∃ c : Command, send_control_command task_id vx vy distance = [c] := by
  simp only [send_control_command]
  by_cases h : |vx| < adjusted_threshold task_id distance ∧
      |vy| < adjusted_threshold task_id distance
  · exact ⟨Command.NOOP, by rw [if_pos h]⟩
  · rw [if_neg h]
    cases hd : dominant_command (adjusted_threshold task_id distance) vx vy with
    | none => exact ⟨Command.NOOP, rfl⟩
    | some c => exact ⟨c, rfl⟩

/-! ## C1 -/

/-- C1: the command quantizer `send_control_command` is total — for every
vector `(vx, vy)`, distance and mode it emits exactly one command from
`{UP, DOWN, LEFT, RIGHT, NOOP}`, and when the dominant component's signed
value exceeds the threshold in neither direction (the Python `command`
variable stays `None`) it falls back to `NOOP` rather than emitting
nothing. -/
theorem send_control_command_total :
    (∀ (task_id : ℤ) (vx vy distance : ℚ), ∃ c : Command,
        send_control_command task_id vx vy distance = [c] ∧
        c ∈ [Command.UP, Command.DOWN, Command.LEFT, Command.RIGHT, Command.NOOP]) ∧
    (∀ (task_id : ℤ) (vx vy distance : ℚ),
        dominant_command (adjusted_threshold task_id distance) vx vy = none →
        send_control_command task_id vx vy distance = [Command.NOOP]) := by
  constructor
  · intro task_id vx vy distance
    obtain ⟨c, hc⟩ := send_control_command_singleton task_id vx vy distance
    exact ⟨c, hc, by cases c <;> simp⟩
  · intro task_id vx vy distance hd
    simp only [send_control_command]
    by_cases h : |vx| < adjusted_threshold task_id distance ∧
        |vy| < adjusted_threshold task_id distance
    · rw [if_pos h]
    · rw [if_neg h, hd]

/-- Witness for C1 at a concrete input where the dominant-axis selection
yields `None`. -/
theorem send_control_command_total_witness :
    send_control_command 1 0 0 0 = [Command.NOOP] :=
  send_control_command_total.2 1 0 0 0
    (by norm_num [dominant_command, adjusted_threshold])

/-! ## C3 -/

/-- C3: whenever `max(|vx|, |vy|)` is below the mode/distance threshold the
quantizer emits `NOOP`; the threshold is the fixed deadband `1.0` in mode 1,
`1.5` in mode 2, and for every other mode a distance-banded micro-threshold
lying in `[0.001, 0.005]`. -/
theorem quantizer_deadband :
    (∀ (task_id : ℤ) (vx vy distance : ℚ),
        max |vx| |vy| < adjusted_threshold task_id distance →
        send_control_command task_id vx vy distance = [Command.NOOP]) ∧
    (∀ distance : ℚ, adjusted_threshold 1 distance = 1) ∧
    (∀ distance : ℚ, adjusted_threshold 2 distance = 3/2) ∧
    (∀ (task_id : ℤ) (distance : ℚ), task_id ≠ 1 → task_id ≠ 2 →
        1/1000 ≤ adjusted_threshold task_id distance ∧
        adjusted_threshold task_id distance ≤ 5/1000) := by
  refine ⟨?_, ?_, ?_, ?_⟩
  · intro task_id vx vy distance h
    have h1 : |vx| < adjusted_threshold task_id distance :=
      lt_of_le_of_lt (le_max_left _ _) h
    have h2 : |vy| < adjusted_threshold task_id distance :=
      lt_of_le_of_lt (le_max_right _ _) h
    simp only [send_control_command]
    rw [if_pos ⟨h1, h2⟩]
  · intro distance; simp [adjusted_threshold]
  · intro distance; norm_num [adjusted_threshold]
  · intro task_id distance h1 h2
    unfold adjusted_threshold
    rw [if_neg h1, if_neg h2]
    split_ifs <;> norm_num

/-- Witness for C3 in a micro-threshold mode. -/
theorem quantizer_deadband_witness :
    send_control_command 3 0 0 10 = [Command.NOOP] :=
  quantizer_deadband.1 3 0 0 10 (by norm_num [adjusted_threshold])

/-! ## C4 -/

/-- C4 counterexample: in mode 3 the micro-threshold is not antitone in the
distance — at distance 3 it is `0.001` while at the larger distance 10 it is
`0.005`, so `threshold(d1) ≥ threshold(d2)` fails for `d1 = 3 ≤ d2 = 10`. -/
theorem micro_threshold_not_antitone :
    (3:ℚ) ≤ 10 ∧ (3:ℤ) ≠ 1 ∧ (3:ℤ) ≠ 2 ∧
    adjusted_threshold 3 3 = 1/1000 ∧ adjusted_threshold 3 10 = 5/1000 ∧
    ¬ adjusted_threshold 3 10 ≤ adjusted_threshold 3 3 := by
  norm_num [adjusted_threshold]

/-- C4 amended: for modes other than 1 and 2 the micro-threshold always lies
in `[0.001, 0.005]` and is antitone in the distance on distances above 5;
but for distances `≤ 5` it drops back to the minimum `0.001`, so the
antitonicity fails across the `d = 5` boundary. -/
theorem micro_threshold_banded_antitone :
    (∀ (task_id : ℤ) (d1 d2 : ℚ), task_id ≠ 1 → task_id ≠ 2 →
        5 < d1 → d1 ≤ d2 →
        adjusted_threshold task_id d2 ≤ adjusted_threshold task_id d1) ∧
    (∀ (task_id : ℤ) (d : ℚ), task_id ≠ 1 → task_id ≠ 2 → d ≤ 5 →
        adjusted_threshold task_id d = 1/1000) ∧
    (∀ (task_id : ℤ) (d : ℚ), task_id ≠ 1 → task_id ≠ 2 →
        1/1000 ≤ adjusted_threshold task_id d ∧
        adjusted_threshold task_id d ≤ 5/1000) := by
  refine ⟨?_, ?_, ?_⟩
  · intro task_id d1 d2 h1 h2 h5 hle
    unfold adjusted_threshold
    rw [if_neg h1, if_neg h2, if_neg h1, if_neg h2]
    split_ifs <;> norm_num <;> linarith
  · intro task_id d h1 h2 h5
    unfold adjusted_threshold
    rw [if_neg h1, if_neg h2]
    split_ifs <;> first | rfl | linarith
  · intro task_id d h1 h2
    unfold adjusted_threshold
    rw [if_neg h1, if_neg h2]
    split_ifs <;> norm_num

/-- Witness for C4's amended statement at concrete band representatives. -/
theorem micro_threshold_banded_antitone_witness :
    adjusted_threshold 3 60 ≤ adjusted_threshold 3 10 ∧
    adjusted_threshold 3 3 = 1/1000 := by
  constructor
  · exact micro_threshold_banded_antitone.1 3 10 60 (by norm_num) (by norm_num)
      (by norm_num) (by norm_num)
  · exact micro_threshold_banded_antitone.2.1 3 3 (by norm_num) (by norm_num)
      (by norm_num)

/-! ## C10 -/

/-- C10: on an exact magnitude tie `|vx| = |vy|` the quantizer resolves to
the vertical axis — `DOWN` when `vy` exceeds the threshold, `UP` when `vy`
is below its negation, `NOOP` otherwise — and a horizontal command is only
ever emitted when `|vx|` is strictly greater than `|vy|`. -/
theorem tie_breaks_vertical :
    (∀ (task_id : ℤ) (vx vy distance : ℚ), |vx| = |vy| →
      (adjusted_threshold task_id distance < vy →
          send_control_command task_id vx vy distance = [Command.DOWN]) ∧
      (vy < -adjusted_threshold task_id distance →
          send_control_command task_id vx vy distance = [Command.UP]) ∧
      (-adjusted_threshold task_id distance ≤ vy →
          vy ≤ adjusted_threshold task_id distance →
          send_control_command task_id vx vy distance = [Command.NOOP])) ∧
    (∀ (task_id : ℤ) (vx vy distance : ℚ) (c : Command),
        send_control_command task_id vx vy distance = [c] →
        c = Command.LEFT ∨ c = Command.RIGHT → |vy| < |vx|) := by
  constructor
  · intro task_id vx vy distance h
    have ht : 0 < adjusted_threshold task_id distance :=
      adjusted_threshold_pos task_id distance
    have hxy : ¬ |vx| > |vy| := by rw [h]; exact lt_irrefl _
    refine ⟨?_, ?_, ?_⟩
    · intro hvy
      have habs : ¬ (|vx| < adjusted_threshold task_id distance ∧
          |vy| < adjusted_threshold task_id distance) := by
        rintro ⟨-, h2⟩
        have := le_abs_self vy
        linarith
      simp only [send_control_command, dominant_command]
      rw [if_neg habs, if_neg hxy, if_pos hvy]
    · intro hvy
      have habs : ¬ (|vx| < adjusted_threshold task_id distance ∧
          |vy| < adjusted_threshold task_id distance) := by
        rintro ⟨-, h2⟩
        have := neg_abs_le vy
        linarith
      have hnd : ¬ vy > adjusted_threshold task_id distance := by linarith
      simp only [send_control_command, dominant_command]
      rw [if_neg habs, if_neg hxy, if_neg hnd, if_pos hvy]
    · intro hlo hhi
      by_cases habs : |vy| < adjusted_threshold task_id distance
      · have h1 : |vx| < adjusted_threshold task_id distance := h ▸ habs
        simp only [send_control_command]
        rw [if_pos ⟨h1, habs⟩]
      · have habs2 : ¬ (|vx| < adjusted_threshold task_id distance ∧
            |vy| < adjusted_threshold task_id distance) := fun hc => habs hc.2
        have hnd : ¬ vy > adjusted_threshold task_id distance := by linarith
        have hnu : ¬ vy < -adjusted_threshold task_id distance := by linarith
        simp only [send_control_command, dominant_command]
        rw [if_neg habs2, if_neg hxy, if_neg hnd, if_neg hnu]
  · intro task_id vx vy distance c hsend hc
    by_cases hd : |vx| > |vy|
    · exact hd
    · exfalso
      simp only [send_control_command, dominant_command] at hsend
      rw [if_neg hd] at hsend
      split_ifs at hsend <;> simp_all <;> rcases hc with rfl | rfl <;> simp_all

/-- Witness for C10 at a concrete exact tie resolved to `DOWN`. -/
theorem tie_breaks_vertical_witness :
    send_control_command 1 2 2 0 = [Command.DOWN] :=
  (tie_breaks_vertical.1 1 2 2 0 (by norm_num)).1
    (by norm_num [adjusted_threshold])

/-! ## C6 -/

/-- C6: both color locators return absent when no contour survives or the
largest contour's area is below 100; with area `≥ 100` and valid moments
they return a position; in the degenerate zero-moment case the obstacle
locator returns the area with no position; and the control law ignores the
obstacle area entirely when the obstacle position is absent, treating the
degenerate case as no obstacle for steering. -/
theorem detectors_area_filter :
    (detect_yellow_obstacle [] = (none, 0) ∧ detect_red_target [] = none) ∧
    (∀ (contours : List Contour) (c : Contour),
        max_contour_by_area contours = some c → c.area < 100 →
        detect_yellow_obstacle contours = (none, 0) ∧
        detect_red_target contours = none) ∧
    (∀ (contours : List Contour) (c : Contour),
        max_contour_by_area contours = some c → 100 ≤ c.area → c.m00 ≠ 0 →
        (∃ p, (detect_yellow_obstacle contours).1 = some p) ∧
        (∃ p, detect_red_target contours = some p)) ∧
    (∀ (contours : List Contour) (c : Contour),
        max_contour_by_area contours = some c → 100 ≤ c.area → c.m00 = 0 →
        detect_yellow_obstacle contours = (none, c.area)) ∧
    (∀ (task_id : ℤ) (w h : ℕ) (red_pos : Option (ℚ × ℚ)) (a1 a2 td od : ℚ),
        calculate_control_vector task_id w h red_pos none a1 td od =
          calculate_control_vector task_id w h red_pos none a2 td od) := by
  refine ⟨⟨rfl, rfl⟩, ?_, ?_, ?_, ?_⟩
  · intro contours c hmax harea
    unfold detect_yellow_obstacle detect_red_target
    rw [hmax]
    simp [harea]
  · intro contours c hmax harea hm
    have harea2 : ¬ c.area < 100 := not_lt.mpr harea
    constructor
    · refine ⟨(pyInt (c.m10 / c.m00), pyInt (c.m01 / c.m00)), ?_⟩
      unfold detect_yellow_obstacle
      rw [hmax]
      simp [harea2, hm]
    · refine ⟨(pyInt c.circle_center.1, pyInt c.circle_center.2), ?_⟩
      unfold detect_red_target
      rw [hmax]
      simp [harea2]
  · intro contours c hmax harea hm
    have harea2 : ¬ c.area < 100 := not_lt.mpr harea
    unfold detect_yellow_obstacle
    rw [hmax]
    simp [harea2, hm]
  · intro task_id w h red_pos a1 a2 td od
    cases red_pos <;> rfl

/-- Witness for C6: a sub-threshold contour is absent, a zero-moment
contour of area 150 yields `(none, 150)`, and an area-150 contour with
valid moments yields a red-target position. -/
theorem detectors_area_filter_witness :
    detect_yellow_obstacle [⟨50, 1, 1, 1, (5, 5)⟩] = (none, 0) ∧
    detect_yellow_obstacle [⟨150, 0, 0, 0, (0, 0)⟩] = (none, 150) ∧
    (∃ p, detect_red_target [⟨150, 3, 30, 60, (10, 20)⟩] = some p) := by
  refine ⟨(detectors_area_filter.2.1 [⟨50, 1, 1, 1, (5, 5)⟩]
      ⟨50, 1, 1, 1, (5, 5)⟩ rfl (by norm_num)).1, ?_,
    (detectors_area_filter.2.2.1 [⟨150, 3, 30, 60, (10, 20)⟩]
      ⟨150, 3, 30, 60, (10, 20)⟩ rfl (by norm_num) (by norm_num)).2⟩
  exact detectors_area_filter.2.2.2.1 [⟨150, 0, 0, 0, (0, 0)⟩]
    ⟨150, 0, 0, 0, (0, 0)⟩ rfl (by norm_num) rfl

/-! ## C7 -/

/-- C7: in mode 2 with a detected target at nonzero distance, the control
vector is `(gain·dx, gain·dy)` with gain given by the five distance
brackets `>100→1.5, >50→1.0, >25→0.6, >10→0.4, else→0.25`, and this gain is
monotonically non-increasing as distance decreases. -/
theorem mode2_five_band_gain :
    (∀ (w h : ℕ) (rx ry : ℚ) (yellow_pos : Option (ℚ × ℚ))
        (yellow_area td od : ℚ),
        0 < td →
        td * td = (rx - ((w / 2 : ℕ) : ℚ))^2 + (ry - ((h / 2 : ℕ) : ℚ))^2 →
        calculate_control_vector 2 w h (some (rx, ry)) yellow_pos yellow_area
            td od =
          some (task2_gain td * (rx - ((w / 2 : ℕ) : ℚ)),
                task2_gain td * (ry - ((h / 2 : ℕ) : ℚ)), td)) ∧
    (∀ d : ℚ, 100 < d → task2_gain d = 3/2) ∧
    (∀ d : ℚ, 50 < d → d ≤ 100 → task2_gain d = 1) ∧
    (∀ d : ℚ, 25 < d → d ≤ 50 → task2_gain d = 3/5) ∧
    (∀ d : ℚ, 10 < d → d ≤ 25 → task2_gain d = 2/5) ∧
    (∀ d : ℚ, d ≤ 10 → task2_gain d = 1/4) ∧
    (∀ d1 d2 : ℚ, d1 ≤ d2 → task2_gain d1 ≤ task2_gain d2) := by
  refine ⟨?_, ?_, ?_, ?_, ?_, ?_, ?_⟩
  · intro w h rx ry yellow_pos yellow_area td od htd hsq
    simp only [calculate_control_vector]
    rw [if_pos htd]
    norm_num
  · intro d hd; unfold task2_gain; split_ifs <;> norm_num <;> linarith
  · intro d hd1 hd2; unfold task2_gain; split_ifs <;> norm_num <;> linarith
  · intro d hd1 hd2; unfold task2_gain; split_ifs <;> norm_num <;> linarith
  · intro d hd1 hd2; unfold task2_gain; split_ifs <;> norm_num <;> linarith
  · intro d hd; unfold task2_gain; split_ifs <;> norm_num <;> linarith
  · intro d1 d2 hle; unfold task2_gain; split_ifs <;> norm_num <;> linarith

/-- Witness for C7 on a 640×480 frame with the target 200 pixels from the
center. -/
theorem mode2_five_band_gain_witness :
    calculate_control_vector 2 640 480 (some (480, 360)) none 0 200 0 =
      some (240, 180, 200) := by
  have h := mode2_five_band_gain.1 640 480 480 360 none 0 200 0 (by norm_num)
    (by norm_num)
  rw [h]
  norm_num [task2_gain]

/-! ## C5 -/

theorem max_td_one_ne (td : ℚ) : max td 1 ≠ 0 :=
  ne_of_gt (lt_of_lt_of_le one_pos (le_max_right td 1))

theorem bypass_tangent_eval (dx dy dx_obs dy_obs td : ℚ) :
    (0 < dx * dy_obs - dy * dx_obs →
      bypass_tangent dx dy dx_obs dy_obs td =
        some (dy / max td 1, -dx / max td 1)) ∧
    (dx * dy_obs - dy * dx_obs ≤ 0 →
      bypass_tangent dx dy dx_obs dy_obs td =
        some (-dy / max td 1, dx / max td 1)) := by
  constructor
  · intro h
    simp only [bypass_tangent]
    rw [if_pos h]
    simp [cdiv, max_td_one_ne td]
  · intro h
    simp only [bypass_tangent]
    rw [if_neg (not_lt.mpr h)]
    simp [cdiv, max_td_one_ne td]

theorem bypass_tangent_exists (dx dy dx_obs dy_obs td : ℚ) :
    ∃ p : ℚ × ℚ, bypass_tangent dx dy dx_obs dy_obs td = some p := by
  rcases le_or_lt (dx * dy_obs - dy * dx_obs) 0 with h | h
  · exact ⟨_, (bypass_tangent_eval dx dy dx_obs dy_obs td).2 h⟩
  · exact ⟨_, (bypass_tangent_eval dx dy dx_obs dy_obs td).1 h⟩

theorem reflect_cross_flip (dx dy ox oy : ℚ) (hn : dx^2 + dy^2 ≠ 0) :
    dx * (reflect_across dx dy ox oy).2 - dy * (reflect_across dx dy ox oy).1 =
      -(dx * oy - dy * ox) := by
  unfold reflect_across
  field_simp
  ring

theorem reflect_across_of_perp (dx dy px py : ℚ) (hn : dx^2 + dy^2 ≠ 0)
    (hperp : dx * px + dy * py = 0) :
    reflect_across dx dy px py = (-px, -py) := by
  unfold reflect_across
  refine Prod.ext ?_ ?_
  · show ((dx^2 - dy^2) * px + 2*dx*dy*py) / (dx^2 + dy^2) = -px
    rw [div_eq_iff hn]
    linear_combination 2 * dx * hperp
  · show (2*dx*dy*px + (dy^2 - dx^2) * py) / (dx^2 + dy^2) = -py
    rw [div_eq_iff hn]
    linear_combination 2 * dy * hperp

/-- C5: in mode 3 (any mode other than 1 and 2), with a target at nonzero
distance and the obstacle inside the square safety zone, the control vector
is the bypass tangent scaled by the regime's bypass force plus the reduced
direct-attraction term; the tangent is `(dy,-dx)` (normalized) for positive
cross product `dx*dy_obs - dy*dx_obs` and `(-dy,dx)` for negative; and for
an obstacle mirrored across the center-to-target line the cross product's
sign flips and the bypass tangents are mirror images (the reflection of one
another, i.e. each other's negation). -/
theorem mode3_bypass_mirror :
    (∀ (task_id : ℤ) (w h : ℕ) (rx ry yx yy yellow_area td od : ℚ),
      task_id ≠ 1 → task_id ≠ 2 → 0 < td →
      is_sqrt_of td
        ((rx - ((w / 2 : ℕ) : ℚ))^2 + (ry - ((h / 2 : ℕ) : ℚ))^2) →
      |yx - ((w / 2 : ℕ) : ℚ)| < 150 → |yy - ((h / 2 : ℕ) : ℚ)| < 150 →
      ∃ bvx bvy : ℚ,
        bypass_tangent (rx - ((w / 2 : ℕ) : ℚ)) (ry - ((h / 2 : ℕ) : ℚ))
            (yx - ((w / 2 : ℕ) : ℚ)) (yy - ((h / 2 : ℕ) : ℚ)) td =
          some (bvx, bvy) ∧
        calculate_control_vector task_id w h (some (rx, ry)) (some (yx, yy))
            yellow_area td od =
          some ((bypass_forces td).1 * bvx +
                  (bypass_forces td).2 * ((rx - ((w / 2 : ℕ) : ℚ)) / td),
                (bypass_forces td).1 * bvy +
                  (bypass_forces td).2 * ((ry - ((h / 2 : ℕ) : ℚ)) / td),
                td)) ∧
    (∀ dx dy dx_obs dy_obs td : ℚ,
      0 < dx * dy_obs - dy * dx_obs →
      bypass_tangent dx dy dx_obs dy_obs td =
        some (dy / max td 1, -dx / max td 1)) ∧
    (∀ dx dy dx_obs dy_obs td : ℚ,
      dx * dy_obs - dy * dx_obs < 0 →
      bypass_tangent dx dy dx_obs dy_obs td =
        some (-dy / max td 1, dx / max td 1)) ∧
    (∀ dx dy ox oy td : ℚ, dx^2 + dy^2 ≠ 0 →
      dx * oy - dy * ox ≠ 0 →
      (dx * (reflect_across dx dy ox oy).2 -
          dy * (reflect_across dx dy ox oy).1 = -(dx * oy - dy * ox)) ∧
      ∀ p q : ℚ × ℚ,
        bypass_tangent dx dy ox oy td = some p →
        bypass_tangent dx dy (reflect_across dx dy ox oy).1
            (reflect_across dx dy ox oy).2 td = some q →
        q = (-p.1, -p.2) ∧ q = reflect_across dx dy p.1 p.2) := by
  refine ⟨?_, ?_, ?_, ?_⟩
  · intro task_id w h rx ry yx yy yellow_area td od h1 h2 htd hsq hzx hzy
    have htdne : td ≠ 0 := ne_of_gt htd
    obtain ⟨⟨bvx, bvy⟩, hbt⟩ := bypass_tangent_exists
      (rx - ((w / 2 : ℕ) : ℚ)) (ry - ((h / 2 : ℕ) : ℚ))
      (yx - ((w / 2 : ℕ) : ℚ)) (yy - ((h / 2 : ℕ) : ℚ)) td
    refine ⟨bvx, bvy, hbt, ?_⟩
    have hzone : (|yx - ((w / 2 : ℕ) : ℚ)| < 150 ∧
        |yy - ((h / 2 : ℕ) : ℚ)| < 150) := ⟨hzx, hzy⟩
    simp only [calculate_control_vector, safety_zone_state]
    rw [if_pos htd, if_neg h1, if_neg h2, if_pos hzone]
    by_cases h150 : td > 150
    · rw [if_pos h150]
      simp only [task3_far]
      rw [hbt]
      simp only [bypass_forces]
      rw [if_pos h150]
      simp [cdiv, htdne]
    · rw [if_neg h150]
      by_cases h30 : td > 30
      · rw [if_pos h30]
        simp only [task3_mid]
        rw [hbt]
        simp only [bypass_forces]
        rw [if_neg h150, if_pos h30]
        simp [cdiv, htdne]
      · rw [if_neg h30]
        simp only [task3_near]
        rw [hbt]
        simp only [bypass_forces]
        rw [if_neg h150, if_neg h30]
        simp [cdiv, htdne]
  · intro dx dy dx_obs dy_obs td h
    exact (bypass_tangent_eval dx dy dx_obs dy_obs td).1 h
  · intro dx dy dx_obs dy_obs td h
    exact (bypass_tangent_eval dx dy dx_obs dy_obs td).2 (le_of_lt h)
  · intro dx dy ox oy td hn hcross
    refine ⟨reflect_cross_flip dx dy ox oy hn, ?_⟩
    intro p q hp hq
    have hflip := reflect_cross_flip dx dy ox oy hn
    rcases hcross.lt_or_lt with hneg | hpos
    · have hp2 := (bypass_tangent_eval dx dy ox oy td).2 (le_of_lt hneg)
      rw [hp] at hp2
      have hpval : p = (-dy / max td 1, dx / max td 1) :=
        Option.some.inj hp2
      have hpos2 : 0 < dx * (reflect_across dx dy ox oy).2 -
          dy * (reflect_across dx dy ox oy).1 := by rw [hflip]; linarith
      have hq2 := (bypass_tangent_eval dx dy
        (reflect_across dx dy ox oy).1 (reflect_across dx dy ox oy).2 td).1 hpos2
      rw [hq] at hq2
      have hqval : q = (dy / max td 1, -dx / max td 1) :=
        Option.some.inj hq2
      subst hpval hqval
      constructor
      · simp [neg_div]
      · rw [reflect_across_of_perp dx dy _ _ hn (by ring)]
        simp [neg_div]
    · have hp2 := (bypass_tangent_eval dx dy ox oy td).1 hpos
      rw [hp] at hp2
      have hpval : p = (dy / max td 1, -dx / max td 1) :=
        Option.some.inj hp2
      have hneg2 : dx * (reflect_across dx dy ox oy).2 -
          dy * (reflect_across dx dy ox oy).1 ≤ 0 := by rw [hflip]; linarith
      have hq2 := (bypass_tangent_eval dx dy
        (reflect_across dx dy ox oy).1 (reflect_across dx dy ox oy).2 td).2 hneg2
      rw [hq] at hq2
      have hqval : q = (-dy / max td 1, dx / max td 1) :=
        Option.some.inj hq2
      subst hpval hqval
      constructor
      · simp [neg_div]
      · rw [reflect_across_of_perp dx dy _ _ hn (by ring)]
        simp [neg_div]

/-- Witness for C5: 640×480 frame, target at (480, 360) (offset (160, 120),
distance 200), obstacle at (350, 280) (offset (30, 40), inside the safety
zone, cross product 2800 > 0): far-regime bypass with forces (4000, 300)
along the tangent (3/5, -4/5). -/
theorem mode3_bypass_mirror_witness :
    calculate_control_vector 3 640 480 (some (480, 360)) (some (350, 280))
      500 200 50 = some (2640, -3020, 200) := by
  obtain ⟨bvx, bvy, hbt, hcalc⟩ := mode3_bypass_mirror.1 3 640 480 480 360
    350 280 500 200 50 (by decide) (by decide) (by norm_num)
    (by norm_num [is_sqrt_of]) (by norm_num) (by norm_num)
  have ht : bypass_tangent 160 120 30 40 200 =
      some (120 / max 200 1, -160 / max 200 1) :=
    mode3_bypass_mirror.2.1 160 120 30 40 200 (by norm_num)
  norm_num at hbt hcalc
  rw [ht] at hbt
  have hmax : max (200:ℚ) 1 = 200 := max_eq_left (by norm_num)
  rw [hmax] at hbt
  obtain ⟨hx, hy⟩ := Prod.mk.injEq .. ▸ Option.some.inj hbt
  rw [hcalc, bypass_forces, if_pos (by norm_num : (200:ℚ) > 150), ← hx, ← hy]
  norm_num

/-! ## C8 -/

theorem sqrt_dominates (r x y b : ℚ) (h0 : 0 ≤ r) (hsq : r * r = x^2 + y^2)
    (hb : 0 ≤ b) (hxy : b ≤ |x| ∨ b ≤ |y|) : b ≤ r := by
  by_contra hlt
  push_neg at hlt
  have h1 : r * r < b * b := mul_self_lt_mul_self h0 hlt
  rw [pow_two, pow_two] at hsq
  rcases hxy with hx | hx
  · have h2 : b * b ≤ |x| * |x| := mul_self_le_mul_self hb hx
    rw [abs_mul_abs_self] at h2
    have h3 : 0 ≤ y * y := mul_self_nonneg y
    linarith
  · have h2 : b * b ≤ |y| * |y| := mul_self_le_mul_self hb hx
    rw [abs_mul_abs_self] at h2
    have h3 : 0 ≤ x * x := mul_self_nonneg x
    linarith

theorem isSome_ite {α : Type} (c : Prop) [Decidable c] (a b : Option α) :
    (if c then a else b).isSome = if c then a.isSome else b.isSome := by
  split_ifs <;> rfl

theorem calculate_control_vector_isSome (task_id : ℤ) (w h : ℕ)
    (red_pos yellow_pos : Option (ℚ × ℚ)) (yellow_area td od : ℚ)
    (hw : 0 < w) (hh : 0 < h)
    (hred : ∀ p : ℚ × ℚ, red_pos = some p →
      is_sqrt_of td ((p.1 - ((w / 2 : ℕ) : ℚ))^2 + (p.2 - ((h / 2 : ℕ) : ℚ))^2))
    (hyel : ∀ p : ℚ × ℚ, yellow_pos = some p →
      is_sqrt_of od ((p.1 - ((w / 2 : ℕ) : ℚ))^2 + (p.2 - ((h / 2 : ℕ) : ℚ))^2)) :
    (calculate_control_vector task_id w h red_pos yellow_pos yellow_area
      td od).isSome := by
  have hwh : (((w * h : ℕ)) : ℚ) ≠ 0 :=
    Nat.cast_ne_zero.mpr (Nat.mul_ne_zero hw.ne' hh.ne')
  cases red_pos with
  | none =>
    simp only [calculate_control_vector, no_target_control]
    cases yellow_pos with
    | none => simp
    | some yp =>
      obtain ⟨yx, yy⟩ := yp
      by_cases hod : od > 0
      · have hodne : od ≠ 0 := ne_of_gt hod
        have hmax40 : max od (40:ℚ) ≠ 0 :=
          ne_of_gt (lt_of_lt_of_le (by norm_num) (le_max_right od 40))
        simp [cdiv, hod, hodne, hmax40]
      · simp [hod]
  | some rp =>
    obtain ⟨rx, ry⟩ := rp
    simp only [calculate_control_vector]
    by_cases htd : td > 0
    case neg => rw [if_neg htd]; simp
    case pos =>
    rw [if_pos htd]
    have htdne : td ≠ 0 := ne_of_gt htd
    by_cases h1 : task_id = 1
    · rw [if_pos h1]; simp
    rw [if_neg h1]
    by_cases h2 : task_id = 2
    · rw [if_pos h2]; simp
    rw [if_neg h2]
    cases yellow_pos with
    | none =>
      simp only [safety_zone_state]
      by_cases hr1 : td > 150
      · rw [if_pos hr1]; simp [task3_far, cdiv, htdne]
      rw [if_neg hr1]
      by_cases hr2 : td > 30
      · rw [if_pos hr2]; simp [task3_mid, cdiv, htdne]
      · rw [if_neg hr2]; simp [task3_near, cdiv, htdne]
    | some yp =>
      obtain ⟨yx, yy⟩ := yp
      have hsqo := hyel (yx, yy) rfl
      simp only [safety_zone_state]
      by_cases hzone : |yx - ((w / 2 : ℕ) : ℚ)| < 150 ∧
          |yy - ((h / 2 : ℕ) : ℚ)| < 150
      · rw [if_pos hzone]
        obtain ⟨⟨p1, p2⟩, hp⟩ := bypass_tangent_exists
          (rx - ((w / 2 : ℕ) : ℚ)) (ry - ((h / 2 : ℕ) : ℚ))
          (yx - ((w / 2 : ℕ) : ℚ)) (yy - ((h / 2 : ℕ) : ℚ)) td
        by_cases hr1 : td > 150
        · rw [if_pos hr1]; simp [task3_far, hp, cdiv, htdne]
        rw [if_neg hr1]
        by_cases hr2 : td > 30
        · rw [if_pos hr2]; simp [task3_mid, hp, cdiv, htdne]
        · rw [if_neg hr2]; simp [task3_near, hp, cdiv, htdne]
      · rw [if_neg hzone]
        have h150 : (150:ℚ) ≤ od := by
          rcases not_and_or.mp hzone with hx | hx
          · exact sqrt_dominates od _ _ 150 hsqo.1 hsqo.2 (by norm_num)
              (Or.inl (not_lt.mp hx))
          · exact sqrt_dominates od _ _ 150 hsqo.1 hsqo.2 (by norm_num)
              (Or.inr (not_lt.mp hx))
        have hodne : od ≠ 0 := by
          intro h0
          rw [h0] at h150
          norm_num at h150
        have hm2 : max od (2:ℚ) ≠ 0 :=
          ne_of_gt (lt_of_lt_of_le (by norm_num) (le_max_right od 2))
        have hm5 : max od (5:ℚ) ≠ 0 :=
          ne_of_gt (lt_of_lt_of_le (by norm_num) (le_max_right od 5))
        have hm10 : max od (10:ℚ) ≠ 0 :=
          ne_of_gt (lt_of_lt_of_le (by norm_num) (le_max_right od 10))
        by_cases hr1 : td > 150
        · rw [if_pos hr1]
          simp [task3_far, cdiv, htdne, hodne, hm2, isSome_ite]
        rw [if_neg hr1]
        by_cases hr2 : td > 30
        · rw [if_pos hr2]
          simp [task3_mid, cdiv, htdne, hodne, hm5, isSome_ite]
        · rw [if_neg hr2]
          have h120 : ¬ od < 120 := by linarith
          simp [task3_near, cdiv, htdne, hodne, hm10, hwh, isSome_ite, h120,
            hw.ne', hh.ne']

/-- C8: in the dominant variant every division of the control law is
guarded — the distance is checked `> 0` or otherwise bounded away from 0
before dividing — so for all inputs whose stored square roots are genuine
the computation reaches no division by zero (`isSome`); but the secondary
variant's stage-1 repulsion divides the obstacle offset by an obstacle
distance guarded only by `< 60`, and an obstacle exactly at the frame
center (obstacle distance 0, a realizable input: both square-root side
conditions hold) makes it divide by zero (`none`). -/
theorem guarded_division_no_fault :
    (∀ (task_id : ℤ) (w h : ℕ) (red_pos yellow_pos : Option (ℚ × ℚ))
        (yellow_area td od : ℚ), 0 < w → 0 < h →
        (∀ p : ℚ × ℚ, red_pos = some p →
          is_sqrt_of td ((p.1 - ((w / 2 : ℕ) : ℚ))^2 +
            (p.2 - ((h / 2 : ℕ) : ℚ))^2)) →
        (∀ p : ℚ × ℚ, yellow_pos = some p →
          is_sqrt_of od ((p.1 - ((w / 2 : ℕ) : ℚ))^2 +
            (p.2 - ((h / 2 : ℕ) : ℚ))^2)) →
        (calculate_control_vector task_id w h red_pos yellow_pos yellow_area
          td od).isSome) ∧
    calculate_control_vector_alt 3 640 480 (some (480, 360)) (some (320, 240))
      150 200 0 = none ∧
    is_sqrt_of 200 ((480 - ((640 / 2 : ℕ) : ℚ))^2 +
      (360 - ((480 / 2 : ℕ) : ℚ))^2) ∧
    is_sqrt_of 0 ((320 - ((640 / 2 : ℕ) : ℚ))^2 +
      (240 - ((480 / 2 : ℕ) : ℚ))^2) := by
  refine ⟨?_, ?_, by norm_num [is_sqrt_of], by norm_num [is_sqrt_of]⟩
  · intro task_id w h red_pos yellow_pos yellow_area td od hw hh hred hyel
    exact calculate_control_vector_isSome task_id w h red_pos yellow_pos
      yellow_area td od hw hh hred hyel
  · norm_num [calculate_control_vector_alt, alt_stage1, cdiv]

/-- Witness for C8's universally quantified half: the same
obstacle-at-center input that breaks the secondary variant is handled by
the dominant variant (its safety-zone bypass covers it). -/
theorem guarded_division_no_fault_witness :
    (calculate_control_vector 3 640 480 (some (480, 360)) (some (320, 240))
      150 200 0).isSome :=
  guarded_division_no_fault.1 3 640 480 (some (480, 360)) (some (320, 240))
    150 200 0 (by norm_num) (by norm_num)
    (by rintro p hp; obtain rfl := Option.some.inj hp; norm_num [is_sqrt_of])
    (by rintro p hp; obtain rfl := Option.some.inj hp; norm_num [is_sqrt_of])

/-! ## C2 -/

theorem process_image_singleton (task_id : ℤ) (f : FrameObs) (hf : f.valid) :
    process_image task_id f = [frame_command task_id f] := by
  obtain ⟨hw, hh, hr, hy⟩ := hf
  have hs := calculate_control_vector_isSome task_id f.width f.height f.red_pos
    f.yellow_pos f.yellow_area f.td f.od hw hh
    (fun p hp => by rw [hp] at hr; exact hr)
    (fun p hp => by rw [hp] at hy; exact hy)
  unfold frame_command process_image
  obtain ⟨v, hv⟩ := Option.isSome_iff_exists.mp hs
  obtain ⟨vx, vy, d⟩ := v
  rw [hv]
  show send_control_command task_id vx vy d =
    [(send_control_command task_id vx vy d).headD Command.NOOP]
  obtain ⟨c, hc⟩ := send_control_command_singleton task_id vx vy d
  rw [hc]
  rfl

/-- C2: the session loop emits exactly one command line per successfully
loading non-blank inbound line, in input order — the command sequence is
the per-frame command mapped over the good frames in order, and its length
is the count of good lines; blank lines and failed loads emit nothing; and
the loop structurally consumes every line (a bad frame merely contributes
the empty output and processing continues), terminating only at
end-of-input. -/
theorem session_liveness :
    (∀ (task_id : ℤ) (l : InboundLine) (rest : List InboundLine),
      session_loop task_id (l :: rest) =
        process_line task_id l ++ session_loop task_id rest) ∧
    (∀ task_id : ℤ, session_loop task_id [] = []) ∧
    (∀ task_id : ℤ, process_line task_id InboundLine.blank = [] ∧
      process_line task_id InboundLine.badFrame = []) ∧
    (∀ (task_id : ℤ) (lines : List InboundLine),
      (∀ f : FrameObs, InboundLine.goodFrame f ∈ lines → f.valid) →
      session_loop task_id lines =
        (good_frames lines).map (frame_command task_id) ∧
      (session_loop task_id lines).length = lines.countP is_good) := by
  refine ⟨fun _ _ _ => rfl, fun _ => rfl, fun _ => ⟨rfl, rfl⟩, ?_⟩
  intro task_id lines
  induction lines with
  | nil => intro _; simp [session_loop, good_frames]
  | cons l rest ih =>
    intro hvalid
    have hrest : ∀ f : FrameObs, InboundLine.goodFrame f ∈ rest → f.valid :=
      fun f hf => hvalid f (List.mem_cons_of_mem l hf)
    obtain ⟨ih1, ih2⟩ := ih hrest
    cases l with
    | blank =>
      refine ⟨?_, ?_⟩
      · simpa [session_loop, process_line, good_frames] using ih1
      · simpa [session_loop, process_line, is_good, List.countP_cons] using ih2
    | badFrame =>
      refine ⟨?_, ?_⟩
      · simpa [session_loop, process_line, good_frames] using ih1
      · simpa [session_loop, process_line, is_good, List.countP_cons] using ih2
    | goodFrame f =>
      have hone := process_image_singleton task_id f
        (hvalid f (List.mem_cons_self _ _))
      refine ⟨?_, ?_⟩
      · simp [session_loop, process_line, good_frames, hone, ih1]
      · simp [session_loop, process_line, hone, is_good, List.countP_cons, ih2]

/-- Witness for C2 on the four-line demo sequence (blank, good, bad,
good). -/
theorem session_liveness_witness :
    session_loop 1 demo_lines =
      (good_frames demo_lines).map (frame_command 1) ∧
    (session_loop 1 demo_lines).length = demo_lines.countP is_good := by
  refine session_liveness.2.2.2 1 demo_lines ?_
  intro f hf
  simp [demo_lines] at hf
  rcases hf with rfl | rfl
  · norm_num [FrameObs.valid, demo_frame]
  · norm_num [FrameObs.valid, demo_frame2, is_sqrt_of]

/-! ## C9 -/

/-- C9 counterexample: the secondary variant's handshake
(src/main.py lines 44-56) emits no identification line at all for task 0 —
its whole output is the two header lines, contradicting the claimed "one or
more additional one-shot identification lines" when `n = 0`. -/
theorem handshake_alt_task0_no_id :
    handshake_alt 0 = ["debug=true", "task 0"] ∧
    (handshake_alt 0).drop 2 = [] := by
  constructor <;> rfl

/-- C9 amended: in the dominant variant the process's stdout starts, before
any command line, with the debug-flag line `debug=false`, then the task
line `task n`, then — exactly when `n = 0` — the one-shot identification
lines; the secondary variant emits the same two header lines (with
`debug=true`) but no identification lines even for `n = 0`. -/
theorem handshake_before_commands :
    (∀ (task_id : ℤ) (lines : List InboundLine),
      main_stdout task_id lines =
        "debug=false" :: ("task " ++ toString task_id) ::
          ((if task_id = 0 then ["缪旭", "202510322027"] else []) ++
            (session_loop task_id lines).map Command.line)) ∧
    (∀ task_id : ℤ, task_id = 0 → (handshake task_id).drop 2 ≠ []) ∧
    (∀ task_id : ℤ, task_id ≠ 0 →
      handshake task_id = ["debug=false", "task " ++ toString task_id]) ∧
    (∀ task_id : ℤ, handshake_alt task_id =
      ["debug=true", "task " ++ toString task_id]) := by
  refine ⟨?_, ?_, ?_, fun _ => rfl⟩
  · intro task_id lines
    simp [main_stdout, handshake]
  · intro task_id h0
    subst h0
    simp [handshake]
  · intro task_id h0
    simp [handshake, h0]

/-- Witness for C9: concrete handshakes for task 0 (with identification
lines) and task 3 (without). -/
theorem handshake_before_commands_witness :
    main_stdout 0 [] = ["debug=false", "task 0", "缪旭", "202510322027"] ∧
    (handshake 0).drop 2 ≠ [] ∧
    handshake 3 = ["debug=false", "task 3"] := by
  refine ⟨?_, handshake_before_commands.2.1 0 rfl, ?_⟩
  · rw [handshake_before_commands.1 0 []]
    rfl
  · rw [handshake_before_commands.2.2.1 3 (by decide)]
    rfl
